import Mathlib

/-!
# Verification of `fio-buffer` (`fio_buffer/core.py`)

A shallow embedding of the orchestration layer of the `fio-buffer` Fiona CLI
plugin, together with theorems settling the specification claims.

Modelling conventions, taken from the source `fio_buffer/core.py`:

* Geometries are opaque: the embedding is polymorphic in a geometry type `G`.
  The two external collaborators used by `_processor` are passed in as
  parameters:
  - `tg : Option String → Option String → G → Except String G` models
    `fiona.transform.transform_geom(src_crs, dst_crs, geom,
    antimeridian_cutting=True)`, a call that may raise;
  - `bo : BufArgs → G → Except String G` models
    `shapely...shape(geom).buffer(**buf_args)` (together with `mapping`),
    a call that may raise.
* A CRS value is `Option String`: `none` is Python `None` (unset).
* A Python exception is `Except.error msg`.  A function that mutates one of
  its arguments in place is embedded in state-passing style: it returns the
  final state of that argument alongside its result.
* Feature property values relevant to distance resolution are modelled as
  `Option ℚ`: `none` is a JSON null, `some q` a numeric value.  A property
  map is an association list; a lookup miss models Python's `KeyError`.
-/

namespace FioBuffer

/-- The `--distance` option after the `_cb_dist` click callback
(`core.py` lines 57-66): `float(value)` if it parses, else the raw string,
treated as a property (field) name. -/
inductive Distance where
  | num (d : ℚ)
  | field (name : String)
deriving DecidableEq

/-- The `buf_args` dict built in `buffer` (`core.py` lines 279-285): keyword
arguments for the shapely buffer call. -/
structure BufArgs where
  distance : Distance
  resolution : Int
  cap_style : Nat
  join_style : Nat
  mitre_limit : ℚ
deriving DecidableEq

/-- A GeoJSON feature as `_processor` sees it: an optional `id`, a
`properties` mapping, and a `geometry`.  Only the property values a distance
field can hold (numbers and nulls) are modelled. -/
structure Feature (G : Type) where
  id : Option String
  properties : List (String × Option ℚ)
  geometry : G
deriving DecidableEq

/-- `feat['properties'][name]`: `none` models a `KeyError` (field absent),
`some none` a field whose value is null, `some (some q)` a numeric value. -/
def Feature.lookupProp {G : Type} (f : Feature G) (name : String) :
    Option (Option ℚ) :=
  f.properties.lookup name

/-- The `args` dict handed to `_processor` by the task generator
(`core.py` lines 288-296). -/
structure TaskArgs (G : Type) where
  feat : Feature G
  src_crs : Option String
  buf_crs : Option String
  dst_crs : Option String
  skip_failures : Bool
  buf_args : BufArgs
deriving DecidableEq

/-- What a `_processor` call does, seen from the caller: it returns a feature,
returns `None` (the `except` branch with `skip_failures` set — the feature is
dropped), or lets an exception escape. -/
inductive ProcOutcome (G : Type) where
  | returned (f : Feature G)
  | dropped
  | raised (e : String)
deriving DecidableEq

/-- `true` iff the call let an exception escape. -/
def ProcOutcome.isRaised {G : Type} : ProcOutcome G → Bool
  | .raised _ => true
  | _ => false

/-- `true` iff the call returned a feature. -/
def ProcOutcome.isReturned {G : Type} : ProcOutcome G → Bool
  | .returned _ => true
  | _ => false

/-- Full result of one `_processor` call: its outcome plus the final states of
the two dicts the function mutates in place, the `feat` dict
(`feat['geometry'] = ...`, line 124) and the task's `buf_args` dict
(`buf_args['distance'] = field_val`, line 111). -/
structure ProcResult (G : Type) where
  outcome : ProcOutcome G
  feat : Feature G
  buf_args : BufArgs
deriving DecidableEq

/-- The `try` block of `_processor` (`core.py` lines 113-134): reproject
src→buf, buffer, reproject buf→dst, assign the new geometry, return the
feature.  Any exception is caught: logged and swallowed (returning `None`)
when `skip_failures`, re-raised otherwise.  The geometry slot of `feat` is
assigned only in the all-steps-succeeded branch, exactly as in the source
where the assignment's right-hand side is evaluated before the store. -/
def runTrySteps {G : Type} (tg : Option String → Option String → G → Except String G)
    (bo : BufArgs → G → Except String G)
    (src_crs buf_crs dst_crs : Option String) (skip : Bool)
    (ba : BufArgs) (feat : Feature G) : ProcResult G :=
  match tg src_crs buf_crs feat.geometry with
  | .error e => if skip then ⟨.dropped, feat, ba⟩ else ⟨.raised e, feat, ba⟩
  | .ok reprojected =>
    match bo ba reprojected with
    | .error e => if skip then ⟨.dropped, feat, ba⟩ else ⟨.raised e, feat, ba⟩
    | .ok buffered =>
      match tg buf_crs dst_crs buffered with
      | .error e => if skip then ⟨.dropped, feat, ba⟩ else ⟨.raised e, feat, ba⟩
      | .ok g2 =>
        let feat2 := { feat with geometry := g2 }
        ⟨.returned feat2, feat2, ba⟩

/-- `_processor` (`core.py` lines 69-134).  Distance resolution (lines
103-111) happens BEFORE the `try` block: a `.field` distance is looked up in
the feature's properties; a missing field raises `KeyError` (uncaught, outside
the `try`); a null value returns the feature unmodified; a numeric value is
written into the task's `buf_args` dict (`buf_args['distance'] = field_val`)
before entering the `try` block. -/
def _processor {G : Type} (tg : Option String → Option String → G → Except String G)
    (bo : BufArgs → G → Except String G) (args : TaskArgs G) : ProcResult G :=
  match args.buf_args.distance with
  | .num _ =>
      runTrySteps tg bo args.src_crs args.buf_crs args.dst_crs
        args.skip_failures args.buf_args args.feat
  | .field name =>
    match args.feat.lookupProp name with
    | none => ⟨.raised "KeyError", args.feat, args.buf_args⟩
    | some none => ⟨.returned args.feat, args.feat, args.buf_args⟩
    | some (some v) =>
        runTrySteps tg bo args.src_crs args.buf_crs args.dst_crs
          args.skip_failures { args.buf_args with distance := .num v } args.feat

/-- The non-null payload of a processor result, as the main loop sees it:
`o_feat` when a feature was returned, nothing when the worker returned
`None`. -/
def returnedFeat {G : Type} (r : ProcResult G) : Option (Feature G) :=
  match r.outcome with
  | .returned f => some f
  | _ => none

/-- Completion order of `Pool(jobs).imap_unordered` modelled as an index
schedule `π` applied to the in-order result list: entry `i` of `π` says which
task's result arrives next. -/
def applySched {α : Type} (π : List Nat) (l : List α) : List α :=
  π.filterMap fun i => l[i]?

/-- Modelled from the documented contract of
`multiprocessing.Pool.imap_unordered`: the results arrive in an arbitrary
order — `π` is some permutation of the task indices — and with a single
worker process the order is the input order (`π` is the identity). -/
def ValidSchedule (jobs n : Nat) (π : List Nat) : Prop :=
  π.Perm (List.range n) ∧ (jobs = 1 → π = List.range n)

/-- Python's `a or b` for two optional strings, as used by the CRS fall-back
chain (`core.py` lines 253-255). -/
def orFallback (a b : Option String) : Option String :=
  match a with
  | some c => some c
  | none => b

/-- The CLI options of the `buffer` command after click parsing and the
callbacks (`core.py` lines 137-196).  `output_geom_type` defaults to
`"MultiPolygon"`; the empty string is Python-falsy. -/
structure CLIOpts where
  driver : Option String
  cap_style : Nat
  join_style : Nat
  res : Int
  mitre_limit : ℚ
  distance : Distance
  src_crs : Option String
  buf_crs : Option String
  dst_crs : Option String
  output_geom_type : String
  skip_failures : Bool
  jobs : Nat
deriving DecidableEq

/-- The input dataset as `fio.open(infile)` exposes it: declared CRS (may be
unset), driver, schema geometry type, and the feature sequence. -/
structure Dataset (G : Type) where
  crs : Option String
  driver : String
  schemaGeom : String
  features : List (Feature G)
deriving DecidableEq

/-- The metadata the output dataset is opened with (`core.py` lines
265-271): the source meta with driver, CRS and schema geometry type
overridden. -/
structure Meta where
  driver : String
  crs : Option String
  schemaGeom : String
deriving DecidableEq

deriving instance DecidableEq for Except

/-- Observable result of one run of the `buffer` command: which datasets were
opened/created, the features written to the output, and the exit status
(`Except.error` is a raised `ClickException`/exception, hence a non-zero
exit). -/
structure RunResult (G : Type) where
  inputOpened : Bool
  outputCreated : Bool
  outputMeta : Option Meta
  written : List (Feature G)
  exit : Except String Unit
deriving DecidableEq

/-- The task dicts produced by `task_generator` (`core.py` lines 288-296),
after the CRS fall-backs of lines 253-255: one task per input feature, in
input order, all carrying the same resolved CRS triple, skip flag and buffer
parameters. -/
def mkTasks {G : Type} (opts : CLIOpts) (src : Dataset G) : List (TaskArgs G) :=
  let src_crs := orFallback opts.src_crs src.crs
  let buf_crs := orFallback opts.buf_crs src_crs
  let dst_crs := orFallback opts.dst_crs src_crs
  src.features.map fun f =>
    ⟨f, src_crs, buf_crs, dst_crs, opts.skip_failures,
     ⟨opts.distance, opts.res, opts.cap_style, opts.join_style,
      opts.mitre_limit⟩⟩

/-- The result-consuming loop of `buffer` (`core.py` lines 299-307), fed the
results in arrival order.  Fetching a result whose worker raised re-raises in
the parent and aborts the loop.  A `None` result is skipped.  A returned
feature is written; a write failure is logged and skipped when
`skip_failures`, re-raised otherwise.  Returns the features written in order
together with the loop's exit status. -/
def writeLoop {G : Type} (wr : Feature G → Except String Unit) (skip : Bool) :
    List (ProcResult G) → List (Feature G) × Except String Unit
  | [] => ([], .ok ())
  | r :: rest =>
    match r.outcome with
    | .raised e => ([], .error e)
    | .dropped => writeLoop wr skip rest
    | .returned f =>
      match wr f with
      | .ok _ =>
        let p := writeLoop wr skip rest
        (f :: p.1, p.2)
      | .error e => if skip then writeLoop wr skip rest else ([], .error e)

/-- The `buffer` click command (`core.py` lines 195-309): the
`--dst-crs`-without-`--buf-crs` guard (line 240, before any file is opened),
opening the input, the CRS fall-back chain and missing-CRS guard (lines
253-259, before the output is created), output metadata derivation (lines
265-271), creating the output, dispatching one task per feature through the
pool (completion order `π`) and the write loop.  `wr` models `dst.write`. -/
def bufferCmd {G : Type} (tg : Option String → Option String → G → Except String G)
    (bo : BufArgs → G → Except String G)
    (wr : Feature G → Except String Unit) (π : List Nat)
    (opts : CLIOpts) (src : Dataset G) : RunResult G :=
  if opts.dst_crs.isSome && opts.buf_crs.isNone then
    ⟨false, false, none, [], .error "Must specify --buf-crs when using --dst-crs."⟩
  else
    let src_crs := orFallback opts.src_crs src.crs
    let dst_crs := orFallback opts.dst_crs src_crs
    if src_crs.isNone then
      ⟨true, false, none, [],
       .error "CRS is not set in input file.  Use --src-crs to specify."⟩
    else
      let meta : Meta :=
        ⟨opts.driver.getD src.driver, dst_crs,
         if opts.output_geom_type = "" then src.schemaGeom
         else opts.output_geom_type⟩
      let results := applySched π ((mkTasks opts src).map (_processor tg bo))
      let wres := writeLoop wr opts.skip_failures results
      ⟨true, true, some meta, wres.1, wres.2⟩

/-!
## Shared buffer parameters under the process pool

In the parent process every task dict built by `task_generator` holds a
reference to the one `buf_args` dict built at `core.py` lines 279-285, and
`_processor` assigns into that dict's `distance` slot (line 111).  The store
below makes the object identities explicit: `store` is a heap of `BufArgs`
cells, the parent's shared dict lives at address `r`.  Dispatching a task
through `Pool.imap_unordered` pickles the task dict, so the worker's
`_processor` call runs on a fresh value copy of the cell's current contents
(a fresh address), and its in-place mutation lands in that fresh cell. -/

/-- Dispatch of a single task: pickle the shared `buf_args` cell at `r` into a
fresh cell, run `_processor` in the worker on the copy, keep the worker-side
final state of the copy in its fresh cell. -/
def pooledStep {G : Type} (tg : Option String → Option String → G → Except String G)
    (bo : BufArgs → G → Except String G)
    (src_crs buf_crs dst_crs : Option String) (skip : Bool)
    (store : List BufArgs) (r : Nat) (f : Feature G) :
    ProcResult G × List BufArgs :=
  let pickled := (store[r]?).getD ⟨.num 0, 0, 0, 0, 0⟩
  let res := _processor tg bo ⟨f, src_crs, buf_crs, dst_crs, skip, pickled⟩
  (res, store ++ [res.buf_args])

/-- The whole pooled run over the feature sequence, threading the heap of
`BufArgs` cells: each task is dispatched with `pooledStep` against the shared
cell at `r`. -/
def pooledRun {G : Type} (tg : Option String → Option String → G → Except String G)
    (bo : BufArgs → G → Except String G)
    (src_crs buf_crs dst_crs : Option String) (skip : Bool)
    (store : List BufArgs) (r : Nat) :
    List (Feature G) → List (ProcResult G) × List BufArgs
  | [] => ([], store)
  | f :: fs =>
    let s := pooledStep tg bo src_crs buf_crs dst_crs skip store r f
    let rest := pooledRun tg bo src_crs buf_crs dst_crs skip s.2 r fs
    (s.1 :: rest.1, rest.2)

/-- Whether step 1 of `_processor` (distance resolution, `core.py` lines
104-105) itself raises: the distance is a field name absent from the
feature's properties, so the lookup raises `KeyError` outside the `try`
block. -/
def step1RaisesB {G : Type} (args : TaskArgs G) : Bool :=
  match args.buf_args.distance with
  | .num _ => false
  | .field name => (args.feat.lookupProp name).isNone

/-!
## Concrete collaborators and fixtures used by the witnesses
-/

/-- A transform collaborator that always succeeds and returns the geometry
unchanged (an identity reprojection). -/
def tgId : Option String → Option String → Nat → Except String Nat :=
  fun _ _ g => .ok g

/-- A buffer collaborator that always succeeds, returning a distinguishable
new geometry. -/
def boSucc : BufArgs → Nat → Except String Nat := fun _ g => .ok (g + 1)

/-- A buffer collaborator that always raises (a degenerate-geometry error). -/
def boFail : BufArgs → Nat → Except String Nat :=
  fun _ _ => .error "TopologyException"

/-- A writer that always succeeds. -/
def wrOk {G : Type} : Feature G → Except String Unit := fun _ => .ok ()

/-- A writer that always raises (e.g. a schema mismatch). -/
def wrBad : Feature Nat → Except String Unit := fun _ => .error "SchemaError"

/-- A concrete feature for witnesses: id "0", a numeric `distance` property,
a null `height` property, geometry `7`. -/
def featW : Feature Nat :=
  ⟨some "0", [("distance", some 3), ("height", none)], 7⟩

/-- Fixed numeric buffer parameters for witnesses. -/
def baNum : BufArgs := ⟨.num 2, 16, 1, 1, 5⟩

/-- Field-name buffer parameters naming the null `height` property. -/
def baFieldH : BufArgs := ⟨.field "height", 16, 1, 1, 5⟩

/-- `featW` after a successful pipeline run under `tgId`/`boSucc`. -/
def featW8 : Feature Nat :=
  ⟨some "0", [("distance", some 3), ("height", none)], 8⟩

/-- A task whose distance names a field the feature does not carry, with the
skip flag set. -/
def argsMissingField : TaskArgs Nat :=
  ⟨⟨some "1", [], 7⟩, none, none, none, true, ⟨.field "magnitude", 16, 1, 1, 5⟩⟩

/-- CLI options passing `--dst-crs` but not `--buf-crs`. -/
def optsDstOnly : CLIOpts :=
  ⟨none, 1, 1, 16, 5, .num 10, none, none, some "EPSG:3857", "MultiPolygon",
   false, 1⟩

/-- CLI options with all three CRS options left unset. -/
def optsPlain : CLIOpts :=
  ⟨none, 1, 1, 16, 5, .num 10, none, none, none, "MultiPolygon", false, 1⟩

/-- A one-feature input dataset with a declared CRS. -/
def srcW : Dataset Nat := ⟨some "EPSG:4326", "GeoJSON", "Point", [featW]⟩

/-- A one-feature input dataset with no declared CRS. -/
def srcNoCrs : Dataset Nat := ⟨none, "GeoJSON", "Point", [featW]⟩

/-- CLI options requesting two worker processes. -/
def optsJobs2 : CLIOpts :=
  ⟨none, 1, 1, 16, 5, .num 10, some "EPSG:4326", none, none, "MultiPolygon",
   false, 2⟩

/-- A second feature, with no properties. -/
def featV : Feature Nat := ⟨some "1", [], 9⟩

/-- A two-feature input dataset. -/
def srcTwo : Dataset Nat := ⟨some "EPSG:4326", "GeoJSON", "Point", [featW, featV]⟩

/-- Buffer parameters whose distance names the `distance` field. -/
def baFieldD : BufArgs := ⟨.field "distance", 16, 1, 1, 5⟩

/-- A feature carrying `distance = 5`. -/
def featD5 : Feature Nat := ⟨some "2", [("distance", some 5)], 9⟩

/-!
## Helper lemmas
-/

/-- Exhaustive description of the `try` block: either every step succeeded
and the feature is returned with exactly its geometry replaced, or a step
raised and the feature is dropped (`skip = true`) or the exception escapes
(`skip = false`); in the failure cases the feature is untouched. -/
theorem runTrySteps_cases {G : Type}
    (tg : Option String → Option String → G → Except String G)
    (bo : BufArgs → G → Except String G)
    (s b d : Option String) (skip : Bool) (ba : BufArgs) (feat : Feature G) :
    (∃ g2, runTrySteps tg bo s b d skip ba feat =
      ⟨.returned { feat with geometry := g2 }, { feat with geometry := g2 }, ba⟩)
    ∨ (runTrySteps tg bo s b d skip ba feat = ⟨.dropped, feat, ba⟩ ∧ skip = true)
    ∨ (∃ e, runTrySteps tg bo s b d skip ba feat = ⟨.raised e, feat, ba⟩ ∧
        skip = false) := by
  unfold runTrySteps
  cases h1 : tg s b feat.geometry with
  | error e => simp only [h1]; cases skip <;> simp
  | ok reprojected =>
    simp only [h1]
    cases h2 : bo ba reprojected with
    | error e => simp only [h2]; cases skip <;> simp
    | ok buffered =>
      simp only [h2]
      cases h3 : tg b d buffered with
      | error e => simp only [h3]; cases skip <;> simp
      | ok g2 => simp only [h3]; exact Or.inl ⟨g2, rfl⟩

/-- Exhaustive description of `_processor`: the null-field pass-through, the
missing-field `KeyError`, or one of the `try`-block shapes. -/
theorem _processor_cases {G : Type}
    (tg : Option String → Option String → G → Except String G)
    (bo : BufArgs → G → Except String G) (args : TaskArgs G) :
    (_processor tg bo args =
      ⟨.returned args.feat, args.feat, args.buf_args⟩)
    ∨ (_processor tg bo args =
      ⟨.raised "KeyError", args.feat, args.buf_args⟩ ∧ step1RaisesB args = true)
    ∨ (∃ ba, (∃ g2, _processor tg bo args =
        ⟨.returned { args.feat with geometry := g2 },
         { args.feat with geometry := g2 }, ba⟩)
      ∨ (_processor tg bo args = ⟨.dropped, args.feat, ba⟩ ∧
          args.skip_failures = true)
      ∨ (∃ e, _processor tg bo args = ⟨.raised e, args.feat, ba⟩ ∧
          args.skip_failures = false)) := by
  unfold _processor
  cases hd : args.buf_args.distance with
  | num d =>
    simp only [hd]
    exact Or.inr (Or.inr ⟨args.buf_args,
      runTrySteps_cases tg bo args.src_crs args.buf_crs args.dst_crs
        args.skip_failures args.buf_args args.feat⟩)
  | field name =>
    simp only [hd]
    cases hv : args.feat.lookupProp name with
    | none =>
      simp only [hv]
      exact Or.inr (Or.inl ⟨trivial, by simp [step1RaisesB, hd, hv]⟩)
    | some v =>
      cases v with
      | none => simp only [hv]; exact Or.inl trivial
      | some q =>
        simp only [hv]
        exact Or.inr (Or.inr ⟨{ args.buf_args with distance := .num q },
          runTrySteps_cases tg bo args.src_crs args.buf_crs args.dst_crs
            args.skip_failures _ args.feat⟩)

/-!
## Claim theorems
-/

/-- C3: For every feature processed with a field-name distance whose resolved
property value is null, `_processor` returns the input feature unmodified
(same geometry and properties), without treating it as a failure and without
touching the feature or the buffer parameters (`core.py` lines 107-109). -/
theorem null_field_distance_skips_buffer {G : Type}
    (tg : Option String → Option String → G → Except String G)
    (bo : BufArgs → G → Except String G) (args : TaskArgs G) (name : String)
    (hd : args.buf_args.distance = .field name)
    (hv : args.feat.lookupProp name = some none) :
    _processor tg bo args =
      ⟨.returned args.feat, args.feat, args.buf_args⟩ := by
  unfold _processor
  simp only [hd, hv]

/-- C3 witness: the null `height` field on `featW` yields the unmodified
feature. -/
theorem null_field_distance_skips_buffer_witness :
    _processor tgId boSucc
        ⟨featW, some "EPSG:4326", some "EPSG:4326", some "EPSG:4326",
         false, baFieldH⟩ =
      ⟨.returned featW, featW, baFieldH⟩ :=
  null_field_distance_skips_buffer tgId boSucc _ "height" rfl rfl

/-- C5: whenever `_processor` returns a feature, that feature agrees with the
input feature on the identifier and the whole properties mapping: only the
geometry slot can differ (`core.py` lines 113-129). -/
theorem success_preserves_non_geometry_fields {G : Type}
    (tg : Option String → Option String → G → Except String G)
    (bo : BufArgs → G → Except String G) (args : TaskArgs G) (f' : Feature G)
    (h : (_processor tg bo args).outcome = .returned f') :
    f'.id = args.feat.id ∧ f'.properties = args.feat.properties := by
  rcases _processor_cases tg bo args with heq | ⟨heq, _⟩ |
      ⟨ba, ⟨g2, heq⟩ | ⟨heq, _⟩ | ⟨e, heq, _⟩⟩ <;>
    rw [heq] at h <;> simp_all
  subst h
  exact ⟨rfl, rfl⟩

/-- C5 witness: a successful run on `featW` keeps id and properties. -/
theorem success_preserves_non_geometry_fields_witness :
    featW8.id = featW.id ∧ featW8.properties = featW.properties :=
  success_preserves_non_geometry_fields tgId boSucc
    ⟨featW, none, none, none, false, baNum⟩ featW8 (by decide)

/-- C7: with a fixed numeric distance and one common CRS for source, buffer
and destination — so that, as the transform collaborator guarantees, both
reprojections are identities — a successful `_processor` call returns the
input feature with its geometry replaced by the direct buffer of the input
geometry (`core.py` lines 113-129). -/
theorem identity_crs_buffer_direct {G : Type}
    (tg : Option String → Option String → G → Except String G)
    (bo : BufArgs → G → Except String G) (args : TaskArgs G)
    (c : Option String) (d : ℚ) (b : G)
    (hs : args.src_crs = c) (hb : args.buf_crs = c) (hd2 : args.dst_crs = c)
    (hdist : args.buf_args.distance = .num d)
    (hid : ∀ g, tg c c g = .ok g)
    (hbo : bo args.buf_args args.feat.geometry = .ok b) :
    (_processor tg bo args).outcome =
      .returned { args.feat with geometry := b } := by
  unfold _processor
  simp only [hdist, hs, hb, hd2]
  unfold runTrySteps
  simp only [hid, hbo]

/-- C7 witness: on `featW` with a shared CRS and identity transform the
output geometry is the direct buffer `boSucc` of the input geometry. -/
theorem identity_crs_buffer_direct_witness :
    (_processor tgId boSucc
        ⟨featW, some "EPSG:4326", some "EPSG:4326", some "EPSG:4326",
         false, baNum⟩).outcome = .returned featW8 :=
  identity_crs_buffer_direct tgId boSucc _ (some "EPSG:4326") 2 8
    rfl rfl rfl rfl (fun _ => rfl) rfl

/-- C10: the geometry slot is assigned only after both reprojections and the
buffer call have succeeded: whenever `_processor` does not return a feature
(it dropped the feature or an exception escaped), the `feat` dict is left
exactly as it was handed in — in particular its geometry is the original one
(`core.py` lines 113-134). -/
theorem geometry_assigned_atomically {G : Type}
    (tg : Option String → Option String → G → Except String G)
    (bo : BufArgs → G → Except String G) (args : TaskArgs G)
    (h : (_processor tg bo args).outcome.isReturned = false) :
    (_processor tg bo args).feat = args.feat := by
  rcases _processor_cases tg bo args with heq | ⟨heq, _⟩ |
      ⟨ba, ⟨g2, heq⟩ | ⟨heq, _⟩ | ⟨e, heq, _⟩⟩ <;>
    (rw [heq] at h ⊢; try simp_all [ProcOutcome.isReturned])

/-- C10 witness: a failing buffer step leaves `featW` intact. -/
theorem geometry_assigned_atomically_witness :
    (_processor tgId boFail ⟨featW, none, none, none, true, baNum⟩).feat =
      featW :=
  geometry_assigned_atomically tgId boFail _ (by decide)

/-- C1 counterexample: a task whose distance field is absent from the
feature, with the skip flag SET.  The claim says any exception in steps 1-4
is caught and, with skip on, the processor returns nothing; instead the
`KeyError` of step 1 (distance resolution, outside the `try` block of
`core.py` line 113) escapes `_processor`. -/
theorem distance_resolution_uncaught_cex :
    argsMissingField.skip_failures = true ∧
    (_processor tgId boSucc argsMissingField).outcome ≠
      (ProcOutcome.dropped : ProcOutcome Nat) ∧
    (_processor tgId boSucc argsMissingField).outcome.isRaised = true := by
  decide

/-- C1 (amended): any exception raised in steps 2-4 (the two reprojections
and the buffering) is caught at the feature boundary inside `_processor`:
with the skip flag set such a failure drops the feature (the only exception
that can escape then is a step-1 distance-resolution `KeyError`); a feature
is only ever dropped when the flag is set (with the flag clear the exception
propagates); and a step-1 lookup failure raises `KeyError` regardless of the
flag (`core.py` lines 103-134). -/
theorem exception_catching_boundary {G : Type}
    (tg : Option String → Option String → G → Except String G)
    (bo : BufArgs → G → Except String G) (args : TaskArgs G) :
    (args.skip_failures = true →
      (_processor tg bo args).outcome.isRaised = true →
      step1RaisesB args = true)
    ∧ ((_processor tg bo args).outcome = .dropped →
      args.skip_failures = true)
    ∧ (step1RaisesB args = true →
      (_processor tg bo args).outcome = .raised "KeyError") := by
  refine ⟨?_, ?_, ?_⟩
  · intro hskip hr
    rcases _processor_cases tg bo args with heq | ⟨heq, h1⟩ |
        ⟨ba, ⟨g2, heq⟩ | ⟨heq, _⟩ | ⟨e, heq, hsf⟩⟩ <;>
      rw [heq] at hr <;> simp_all [ProcOutcome.isRaised]
  · intro hdrop
    rcases _processor_cases tg bo args with heq | ⟨heq, h1⟩ |
        ⟨ba, ⟨g2, heq⟩ | ⟨heq, hs⟩ | ⟨e, heq, hsf⟩⟩ <;>
      rw [heq] at hdrop <;> simp_all
  · intro h1
    unfold step1RaisesB at h1
    cases hd : args.buf_args.distance with
    | num d => simp only [hd] at h1; exact absurd h1 (by simp)
    | field name =>
      simp only [hd] at h1
      cases hv : args.feat.lookupProp name with
      | none => unfold _processor; simp only [hd, hv]
      | some v => rw [hv] at h1; simp at h1

/-- C1 witness: the missing-field task raises `KeyError` despite the skip
flag, and a dropped feature (failing buffer step, skip flag on) indeed had
the flag set. -/
theorem exception_catching_boundary_witness :
    (_processor tgId boSucc argsMissingField).outcome = .raised "KeyError" ∧
    (⟨featW, none, none, none, true, baNum⟩ : TaskArgs Nat).skip_failures =
      true :=
  ⟨(exception_catching_boundary tgId boSucc argsMissingField).2.2 (by decide),
   (exception_catching_boundary tgId boFail
      ⟨featW, none, none, none, true, baNum⟩).2.1 (by decide)⟩

/-- C4: supplying `--dst-crs` without `--buf-crs` makes the run fail with a
`ClickException` (non-zero exit) before any file is opened: the input is not
opened, the output dataset is never created and nothing is written
(`core.py` lines 240-241, ahead of `fio.open` at line 249). -/
theorem dst_crs_requires_buf_crs {G : Type}
    (tg : Option String → Option String → G → Except String G)
    (bo : BufArgs → G → Except String G)
    (wr : Feature G → Except String Unit) (π : List Nat)
    (opts : CLIOpts) (src : Dataset G)
    (h1 : opts.dst_crs.isSome = true) (h2 : opts.buf_crs = none) :
    bufferCmd tg bo wr π opts src =
      ⟨false, false, none, [],
       .error "Must specify --buf-crs when using --dst-crs."⟩ := by
  unfold bufferCmd
  simp [h1, h2]

/-- C4 witness: the guard fires on `optsDstOnly`. -/
theorem dst_crs_requires_buf_crs_witness :
    bufferCmd tgId boSucc wrOk [0] optsDstOnly srcW =
      ⟨false, false, none, [],
       .error "Must specify --buf-crs when using --dst-crs."⟩ :=
  dst_crs_requires_buf_crs tgId boSucc wrOk [0] optsDstOnly srcW rfl rfl

/-- C8: a failure of an individual `dst.write` is governed by the same
skip-failures policy as a processing failure: with the flag set the feature
is skipped and the loop continues with the remaining results; with the flag
clear the write error propagates, aborting the loop with that error
(`core.py` lines 301-307). -/
theorem write_failure_skip_policy {G : Type}
    (wr : Feature G → Except String Unit) (f fs : Feature G) (ba : BufArgs)
    (rest : List (ProcResult G)) (e : String) (hw : wr f = .error e) :
    writeLoop wr true (⟨.returned f, fs, ba⟩ :: rest) = writeLoop wr true rest
    ∧ writeLoop wr false (⟨.returned f, fs, ba⟩ :: rest) = ([], .error e) := by
  constructor <;> simp [writeLoop, hw]

/-- C8 witness: a failing write on `featW` is skipped or fatal according to
the flag. -/
theorem write_failure_skip_policy_witness :
    writeLoop wrBad true (⟨.returned featW, featW, baNum⟩ :: []) =
      writeLoop wrBad true []
    ∧ writeLoop wrBad false (⟨.returned featW, featW, baNum⟩ :: []) =
      ([], .error "SchemaError") :=
  write_failure_skip_policy wrBad featW featW baNum [] "SchemaError" rfl

/-- C6: CRS resolution follows the fall-back chain of `core.py` lines
253-259: every task's source CRS is the `--src-crs` option when given and the
dataset's declared CRS otherwise; the buffer and destination CRS of every
task default to the resolved source CRS when their options are absent; and
when neither `--src-crs` nor a dataset CRS is present the run exits non-zero
after opening the input but without creating the output dataset. -/
theorem crs_fallback_chain {G : Type}
    (tg : Option String → Option String → G → Except String G)
    (bo : BufArgs → G → Except String G)
    (wr : Feature G → Except String Unit) (π : List Nat)
    (opts : CLIOpts) (src : Dataset G) :
    (∀ c, opts.src_crs = some c → ∀ t ∈ mkTasks opts src, t.src_crs = some c)
    ∧ (opts.src_crs = none → ∀ t ∈ mkTasks opts src, t.src_crs = src.crs)
    ∧ (opts.buf_crs = none → ∀ t ∈ mkTasks opts src, t.buf_crs = t.src_crs)
    ∧ (opts.dst_crs = none → ∀ t ∈ mkTasks opts src, t.dst_crs = t.src_crs)
    ∧ (opts.src_crs = none → src.crs = none →
        (opts.dst_crs.isSome && opts.buf_crs.isNone) = false →
        bufferCmd tg bo wr π opts src =
          ⟨true, false, none, [],
           .error "CRS is not set in input file.  Use --src-crs to specify."⟩) := by
  refine ⟨?_, ?_, ?_, ?_, ?_⟩
  · intro c hc t ht
    simp only [mkTasks, List.mem_map] at ht
    obtain ⟨f, _, rfl⟩ := ht
    simp [orFallback, hc]
  · intro hc t ht
    simp only [mkTasks, List.mem_map] at ht
    obtain ⟨f, _, rfl⟩ := ht
    simp [orFallback, hc]
  · intro hb t ht
    simp only [mkTasks, List.mem_map] at ht
    obtain ⟨f, _, rfl⟩ := ht
    simp [orFallback, hb]
  · intro hd t ht
    simp only [mkTasks, List.mem_map] at ht
    obtain ⟨f, _, rfl⟩ := ht
    simp [orFallback, hd]
  · intro hc hsrc hguard
    unfold bufferCmd
    simp [hguard, hc, hsrc, orFallback]

/-- C6 witness: with no CRS anywhere the buffer CRS of every task falls back
to the source CRS and the run aborts without creating the output. -/
theorem crs_fallback_chain_witness :
    (∀ t ∈ mkTasks optsPlain srcNoCrs, t.buf_crs = t.src_crs) ∧
    bufferCmd tgId boSucc wrOk [0] optsPlain srcNoCrs =
      ⟨true, false, none, [],
       .error "CRS is not set in input file.  Use --src-crs to specify."⟩ := by
  have h := crs_fallback_chain tgId boSucc wrOk [0] optsPlain srcNoCrs
  exact ⟨h.2.2.1 rfl, h.2.2.2.2 rfl rfl rfl⟩

/-- The identity schedule replays the results in input order. -/
theorem applySched_range {α : Type} (l : List α) :
    applySched (List.range l.length) l = l := by
  induction l with
  | nil => rfl
  | cons a l ih =>
    unfold applySched at ih ⊢
    rw [List.length_cons, List.range_succ_eq_map, List.filterMap_cons]
    simp only [List.getElem?_cons_zero, List.filterMap_map, Function.comp_def,
      List.getElem?_cons_succ]
    rw [ih]

/-- Any permutation schedule replays a permutation of the results. -/
theorem applySched_perm {α : Type} (π : List Nat) (l : List α)
    (h : π.Perm (List.range l.length)) : (applySched π l).Perm l := by
  have h2 := h.filterMap fun i => l[i]?
  have h3 : List.filterMap (fun i => l[i]?) (List.range l.length) = l :=
    applySched_range l
  rw [h3] at h2
  exact h2

/-- With a writer that always succeeds and no worker exception among the
results, the write loop writes exactly the non-null results, in arrival
order, and exits cleanly. -/
theorem writeLoop_wrOk {G : Type} (skip : Bool) (rs : List (ProcResult G))
    (h : ∀ r ∈ rs, r.outcome.isRaised = false) :
    writeLoop wrOk skip rs = (rs.filterMap returnedFeat, .ok ()) := by
  induction rs with
  | nil => rfl
  | cons r rest ih =>
    have hr := h r (List.mem_cons_self r rest)
    have hrest : ∀ x ∈ rest, x.outcome.isRaised = false :=
      fun x hx => h x (List.mem_cons_of_mem r hx)
    cases ho : r.outcome with
    | raised e => rw [ho] at hr; simp [ProcOutcome.isRaised] at hr
    | dropped =>
      simp [writeLoop, ho, returnedFeat, List.filterMap_cons, ih hrest]
    | returned f =>
      simp [writeLoop, ho, returnedFeat, wrOk, List.filterMap_cons, ih hrest]

/-- C9: over a run that reaches the processing stage, with an always-
succeeding writer and no worker exception: with `--jobs 1` the schedule is
the identity and the output features appear in input order; for any worker
count the output is a permutation of the same non-null processed results
(`core.py` lines 298-307 with the documented `imap_unordered` contract). -/
theorem output_order_and_permutation {G : Type}
    (tg : Option String → Option String → G → Except String G)
    (bo : BufArgs → G → Except String G) (π : List Nat)
    (opts : CLIOpts) (src : Dataset G)
    (hguard : (opts.dst_crs.isSome && opts.buf_crs.isNone) = false)
    (hcrs : (orFallback opts.src_crs src.crs).isNone = false)
    (hπ : ValidSchedule opts.jobs src.features.length π)
    (hnr : ∀ t ∈ mkTasks opts src,
      (_processor tg bo t).outcome.isRaised = false) :
    (opts.jobs = 1 →
      (bufferCmd tg bo wrOk π opts src).written =
        ((mkTasks opts src).map (_processor tg bo)).filterMap returnedFeat)
    ∧ (bufferCmd tg bo wrOk π opts src).written.Perm
        (((mkTasks opts src).map (_processor tg bo)).filterMap returnedFeat) := by
  obtain ⟨hperm, hone⟩ := hπ
  set L := (mkTasks opts src).map (_processor tg bo) with hL
  have hlen : L.length = src.features.length := by
    simp [hL, mkTasks]
  have hmemL : ∀ r ∈ L, r.outcome.isRaised = false := by
    intro r hrL
    rw [hL] at hrL
    obtain ⟨t, htm, rfl⟩ := List.mem_map.mp hrL
    exact hnr t htm
  have hmemS : ∀ r ∈ applySched π L, r.outcome.isRaised = false := by
    intro r hr
    obtain ⟨i, _, hi⟩ := List.mem_filterMap.mp hr
    exact hmemL r (List.getElem?_mem hi)
  have hwrit : (bufferCmd tg bo wrOk π opts src).written =
      (applySched π L).filterMap returnedFeat := by
    unfold bufferCmd
    simp only [hguard, Bool.false_eq_true, if_false, hcrs, ← hL,
      writeLoop_wrOk opts.skip_failures (applySched π L) hmemS]
  constructor
  · intro h1
    rw [hwrit, hone h1, ← hlen, applySched_range]
  · rw [hwrit]
    exact (applySched_perm π L (by rw [hlen]; exact hperm)).filterMap
      returnedFeat

/-- C9 witness: a two-feature run with two workers and the reversed schedule
satisfies both conclusions. -/
theorem output_order_and_permutation_witness :
    (optsJobs2.jobs = 1 →
      (bufferCmd tgId boSucc wrOk [1, 0] optsJobs2 srcTwo).written =
        ((mkTasks optsJobs2 srcTwo).map
          (_processor tgId boSucc)).filterMap returnedFeat)
    ∧ (bufferCmd tgId boSucc wrOk [1, 0] optsJobs2 srcTwo).written.Perm
        (((mkTasks optsJobs2 srcTwo).map
          (_processor tgId boSucc)).filterMap returnedFeat) :=
  output_order_and_permutation tgId boSucc [1, 0] optsJobs2 srcTwo rfl rfl
    (by exact ⟨by decide, by decide⟩) (by decide)

/-- C2: the parent's shared buffer-parameters object survives the whole
pooled run unchanged, and every task is processed against the originally
constructed parameters: although `_processor` assigns into the `distance`
slot of the `buf_args` dict it is handed (`core.py` line 111), each dispatch
runs on a pickled per-task copy, so no processor invocation mutates the
object the remaining tasks use, and each task resolves its field distance
from its own feature alone (`core.py` lines 279-299). -/
theorem shared_buf_args_never_mutated {G : Type}
    (tg : Option String → Option String → G → Except String G)
    (bo : BufArgs → G → Except String G)
    (s b d : Option String) (skip : Bool)
    (store : List BufArgs) (r : Nat) (ba : BufArgs)
    (h : store[r]? = some ba) (fs : List (Feature G)) :
    (pooledRun tg bo s b d skip store r fs).2[r]? = some ba
    ∧ (pooledRun tg bo s b d skip store r fs).1 =
        fs.map fun f => _processor tg bo ⟨f, s, b, d, skip, ba⟩ := by
  induction fs generalizing store with
  | nil => exact ⟨h, rfl⟩
  | cons f fs ih =>
    have hr : r < store.length := by
      by_contra hc
      push_neg at hc
      rw [List.getElem?_eq_none hc] at h
      cases h
    have h2 : (store ++
        [(_processor tg bo ⟨f, s, b, d, skip, ba⟩).buf_args])[r]? =
        some ba := by
      rw [List.getElem?_append_left hr]
      exact h
    have hrec := ih _ h2
    constructor
    · simpa [pooledRun, pooledStep, h] using hrec.1
    · simp [pooledRun, pooledStep, h, hrec.2]

/-- C2 witness: two tasks resolving different field distances through one
shared parameters cell: the cell still holds the original field name
afterwards and each task's result used its own feature's value. -/
theorem shared_buf_args_never_mutated_witness :
    (pooledRun tgId boSucc none none none false [baFieldD] 0
        [featW, featD5]).2[0]? = some baFieldD
    ∧ (pooledRun tgId boSucc none none none false [baFieldD] 0
        [featW, featD5]).1 =
        [featW, featD5].map fun f =>
          _processor tgId boSucc ⟨f, none, none, none, false, baFieldD⟩ :=
  shared_buf_args_never_mutated tgId boSucc none none none false
    [baFieldD] 0 baFieldD rfl [featW, featD5]

end FioBuffer
